import Mathlib

/-!
Verification of the schedview stage-pipeline conventions.

This file gives a shallow embedding, in Lean, of the parts of the
schedview repository that the specification talks about:

* the day_obs boundary computation (evening_local_date in the
  prenight simulation notebook),
* the collect, compute and plot stages of the single-figure pipelines
  (make_visit_map from the examples, read_minor_planet_orbits and
  compute_minor_planet_positions from the architecture document),
* the SimpleSampleDashboard reactive state machine,
* the simulation-archive construction (make_sim_archive_dir and
  transfer_archive_dir),
* the graceful-degradation guards of the Prenight dashboard tabs.

External libraries (astropy, skyfield, bokeh, pandas, rubin_scheduler)
are opaque collaborators of the repository; the embedding abstracts each
external call as a function parameter, while the control flow and data
flow of the repository code itself is translated statement by statement.
Python floats are modelled as rationals, Python ints as Lean integers.
-/

namespace Schedview

/-- Decidable equality on Except values, used to evaluate the witnesses
on concrete inputs.  -/
instance {E A : Type} [DecidableEq E] [DecidableEq A] :
    DecidableEq (Except E A) := fun x y =>
  match x, y with
  | Except.error a, Except.error b =>
    if h : a = b then isTrue (by rw [h])
    else isFalse (fun hc => by cases hc; exact h rfl)
  | Except.error _, Except.ok _ => isFalse (fun hc => Except.noConfusion hc)
  | Except.ok _, Except.error _ => isFalse (fun hc => Except.noConfusion hc)
  | Except.ok a, Except.ok b =>
    if h : a = b then isTrue (by rw [h])
    else isFalse (fun hc => by cases hc; exact h rfl)

/-! ### day_obs boundaries: evening_local_date

Source (prenight simulation notebook, inside make_sim_archive_dir):

    def evening_local_date(mjd, longitude=observatory.site.longitude):
        evening_local_mjd = np.floor(mjd + longitude/360 - 0.5).astype(int)
        evening_local_iso = Time(evening_local_mjd, format='mjd').iso[:10]
        return evening_local_iso

The conversion of the integer MJD to an ISO date string is performed by
the external astropy Time class; it is modelled here as an abstract
rendering function isoOfMjd, assumed injective (distinct integer MJDs
render as distinct calendar dates).
-/

/-- Integer day number assigned by evening_local_date: the floor of
mjd + longitude/360 - 0.5, exactly as computed by the source.  -/
def evening_local_mjd (mjd longitude : ℚ) : ℤ :=
  ⌊mjd + longitude / 360 - 1 / 2⌋

/-- The evening local date: the abstract ISO rendering (astropy
Time(...).iso[:10]) of the integer day number.  -/
def evening_local_date {Date : Type} (isoOfMjd : ℤ → Date)
    (mjd longitude : ℚ) : Date :=
  isoOfMjd (evening_local_mjd mjd longitude)

/-- The MJD of local mean solar noon with integer day number k at the
given longitude (degrees east): local solar time is UTC plus
longitude/360 days, so noon falls at k + 1/2 - longitude/360.  -/
def local_noon (longitude : ℚ) (k : ℤ) : ℚ :=
  (k : ℚ) + 1 / 2 - longitude / 360

theorem evening_local_mjd_eq_iff (mjd longitude : ℚ) (k : ℤ) :
    evening_local_mjd mjd longitude = k ↔
      local_noon longitude k ≤ mjd ∧ mjd < local_noon longitude (k + 1) := by
  unfold evening_local_mjd local_noon
  rw [Int.floor_eq_iff]
  push_cast
  constructor
  · rintro ⟨h1, h2⟩
    exact ⟨by linarith, by linarith⟩
  · rintro ⟨h1, h2⟩
    exact ⟨by linarith, by linarith⟩

/-- C2: the day_obs date assigned to an observation time is keyed to
local-noon boundaries.  For every mjd and longitude,
evening_local_date returns the calendar date whose integer day number
is the floor of mjd + longitude/360 - 0.5; all times from one local
noon up to (but excluding) the next local noon map to the same date,
and times on either side of a local noon map to different dates.  -/
theorem evening_local_date_noon_keyed {Date : Type} (isoOfMjd : ℤ → Date)
    (hinj : Function.Injective isoOfMjd) (longitude : ℚ) :
    (∀ mjd : ℚ, evening_local_date isoOfMjd mjd longitude =
        isoOfMjd ⌊mjd + longitude / 360 - 1 / 2⌋) ∧
    (∀ (k : ℤ) (t1 t2 : ℚ),
        local_noon longitude k ≤ t1 → t1 < local_noon longitude (k + 1) →
        local_noon longitude k ≤ t2 → t2 < local_noon longitude (k + 1) →
        evening_local_date isoOfMjd t1 longitude =
          evening_local_date isoOfMjd t2 longitude) ∧
    (∀ (k : ℤ) (t1 t2 : ℚ),
        t1 < local_noon longitude k →
        local_noon longitude k ≤ t2 → t2 < local_noon longitude (k + 1) →
        evening_local_date isoOfMjd t1 longitude ≠
          evening_local_date isoOfMjd t2 longitude) := by
  refine ⟨fun mjd => rfl, ?_, ?_⟩
  · intro k t1 t2 h1a h1b h2a h2b
    unfold evening_local_date
    have e1 : evening_local_mjd t1 longitude = k :=
      (evening_local_mjd_eq_iff t1 longitude k).mpr ⟨h1a, h1b⟩
    have e2 : evening_local_mjd t2 longitude = k :=
      (evening_local_mjd_eq_iff t2 longitude k).mpr ⟨h2a, h2b⟩
    rw [e1, e2]
  · intro k t1 t2 h1 h2a h2b hcontra
    have e2 : evening_local_mjd t2 longitude = k :=
      (evening_local_mjd_eq_iff t2 longitude k).mpr ⟨h2a, h2b⟩
    have e1 : evening_local_mjd t1 longitude < k := by
      unfold evening_local_mjd
      rw [Int.floor_lt]
      unfold local_noon at h1
      linarith
    have := hinj hcontra
    unfold evening_local_date at hcontra
    have : evening_local_mjd t1 longitude = evening_local_mjd t2 longitude :=
      hinj hcontra
    omega

/-- Witness for C2: at longitude -70 degrees (close to the Rubin site),
the evening local date of MJD 60200 has day number 60199, and
MJD 60199.8 (just before the next local noon) maps to the same date
while MJD 60199.2 (just before the previous local noon) maps to a
different one.  -/
theorem evening_local_date_noon_keyed_witness :
    evening_local_date (fun z : ℤ => z) 60200 (-70) = 60199 ∧
    evening_local_date (fun z : ℤ => z) (60199.8 : ℚ) (-70) =
      evening_local_date (fun z : ℤ => z) 60200 (-70) ∧
    evening_local_date (fun z : ℤ => z) (60199.2 : ℚ) (-70) ≠
      evening_local_date (fun z : ℤ => z) 60200 (-70) := by
  have h := evening_local_date_noon_keyed (fun z : ℤ => z)
    (fun a b hab => hab) (-70)
  refine ⟨?_, ?_, ?_⟩
  · rw [h.1 60200]
    norm_num [Int.floor_eq_iff]
  · exact h.2.1 60199 (60199.8 : ℚ) 60200 (by norm_num [local_noon])
      (by norm_num [local_noon]) (by norm_num [local_noon])
      (by norm_num [local_noon])
  · exact h.2.2 60199 (60199.2 : ℚ) 60200 (by norm_num [local_noon])
      (by norm_num [local_noon]) (by norm_num [local_noon])

/-! ### Collection: read_minor_planet_orbits

Source (architecture document):

    def read_minor_planet_orbits(file_name):
        with skyfield.api.load.open(file_name) as file_io:
            minor_planets = skyfield.data.mpc.load_mpcorb_dataframe(file_io)
        return minor_planets

The two external skyfield calls are modelled as parameters; either may
fail (raise), modelled with Except.  The collector itself contains no
try/except, so failures pass through.
-/

/-- An in-memory tabular object (a pandas DataFrame), reduced to what
the claims need: its column names and its rows.  -/
structure DataFrame (Val : Type) where
  columns : List String
  rows : List (List Val)
  deriving Repr, DecidableEq

/-- The collector for minor-planet orbital elements, translated from
read_minor_planet_orbits.  load_open models skyfield.api.load.open and
load_mpcorb_dataframe models skyfield.data.mpc.load_mpcorb_dataframe;
each is an external call that may raise.  -/
def read_minor_planet_orbits {Content Table E : Type}
    (load_open : String → Except E Content)
    (load_mpcorb_dataframe : Content → Except E Table)
    (file_name : String) : Except E Table :=
  match load_open file_name with
  | Except.error e => Except.error e
  | Except.ok file_io => load_mpcorb_dataframe file_io

/-- C6: collectors only retrieve.  Whenever the open and parse calls
succeed, read_minor_planet_orbits returns the tabular object produced
by the underlying parser for the file contents unchanged: same column
list, same row list, no computation applied.  -/
theorem read_minor_planet_orbits_returns_parser_output
    {Content Val E : Type}
    (load_open : String → Except E Content)
    (load_mpcorb_dataframe : Content → Except E (DataFrame Val))
    (file_name : String) (file_io : Content) (parsed : DataFrame Val)
    (hopen : load_open file_name = Except.ok file_io)
    (hparse : load_mpcorb_dataframe file_io = Except.ok parsed) :
    read_minor_planet_orbits load_open load_mpcorb_dataframe file_name =
      Except.ok parsed ∧
    ∀ returned : DataFrame Val,
      read_minor_planet_orbits load_open load_mpcorb_dataframe file_name =
        Except.ok returned →
      returned.columns = parsed.columns ∧ returned.rows = parsed.rows := by
  have hr : read_minor_planet_orbits load_open load_mpcorb_dataframe
      file_name = Except.ok parsed := by
    unfold read_minor_planet_orbits
    rw [hopen]
    exact hparse
  refine ⟨hr, fun returned hret => ?_⟩
  rw [hr] at hret
  cases hret
  exact ⟨rfl, rfl⟩

/-- Witness for C6: a concrete file system with one parsable file.  -/
theorem read_minor_planet_orbits_returns_parser_output_witness :
    read_minor_planet_orbits
      (fun name : String =>
        (Except.ok (name ++ "-bytes") : Except Unit String))
      (fun content : String =>
        (Except.ok (DataFrame.mk ["designation"] [[content]]) :
          Except Unit (DataFrame String)))
      "mpcorb_sample_big.dat" =
      Except.ok (DataFrame.mk ["designation"] [["mpcorb_sample_big.dat-bytes"]]) :=
  (read_minor_planet_orbits_returns_parser_output
    (fun name : String => Except.ok (name ++ "-bytes"))
    (fun content : String =>
      Except.ok (DataFrame.mk ["designation"] [[content]]))
    "mpcorb_sample_big.dat" "mpcorb_sample_big.dat-bytes"
    (DataFrame.mk ["designation"] [["mpcorb_sample_big.dat-bytes"]])
    rfl rfl).1

/-! ### The single-figure pipeline: make_visit_map

Source (examples document, schedview/examples/visitmap.py), with the
original section comments:

    def make_visit_map(iso_date, visit_source, nside=16,
                       map_classes=[...], report=None):
        # Parameters
        day_obs = DayObs.from_date(iso_date)
        # Collect
        visits = schedview.collect.visits.read_visits(
            day_obs, visit_source, stackers=NIGHT_STACKERS)
        footprint = schedview.collect.footprint.get_footprint(nside)
        # Compute
        observatory = ModelObservatory(nside=nside, init_load_length=1)
        observatory.mjd = day_obs.mean_local_solar_midnight.mjd
        conditions = observatory.return_conditions()
        visits = schedview.compute.visits.add_coords_tuple(visits)
        # Plot
        result = schedview.plot.visitmap.plot_visit_skymaps(
            visits, footprint, conditions, map_classes=map_classes)
        # Report
        if report is not None:
            with open(report, "w") as report_io:
                print(bokeh.embed.file_html(result), file=report_io)
        return result

Every library call is a parameter of the embedding, gathered in
VisitMapDeps.  Reading the visit database may fail (raise); the other
stages are pure library calls.  The run record reports the value passed
between each stage, the file writes performed, and the order in which
the stages ran.
-/

/-- The external calls make_visit_map depends on, one field per library
function used by the source.  -/
structure VisitMapDeps (D S M Visits Footprint Conditions Plot E : Type) where
  from_date : String → D
  night_stackers : S
  read_visits : D → String → S → Except E Visits
  get_footprint : Nat → Footprint
  mean_local_solar_midnight : D → ℚ
  return_conditions : ℚ → Conditions
  add_coords_tuple : Visits → Visits
  plot_visit_skymaps : Visits → Footprint → Conditions → M → Plot
  file_html : Plot → String

/-- A tag for each high-level stage of the pipeline, in the order the
source sections name them.  -/
inductive Stage where
  | collect
  | compute
  | plot
  | report
  deriving Repr, DecidableEq

/-- The observable outcome of one successful make_visit_map call: the
value each stage received or produced, the files written, and the
sequence of stages that ran.  -/
structure VisitMapRun (Visits Footprint Conditions Plot : Type) where
  collected : Visits
  footprint : Footprint
  conditions : Conditions
  plot_input : Visits
  result : Plot
  writes : List (String × String)
  trace : List Stage
  deriving DecidableEq

/-- make_visit_map, translated statement by statement from the source;
an exception in the collect stage aborts the whole call.  -/
def make_visit_map {D S M Visits Footprint Conditions Plot E : Type}
    (deps : VisitMapDeps D S M Visits Footprint Conditions Plot E)
    (iso_date visit_source : String) (nside : Nat) (map_classes : M)
    (report : Option String) :
    Except E (VisitMapRun Visits Footprint Conditions Plot) :=
  let day_obs := deps.from_date iso_date
  match deps.read_visits day_obs visit_source deps.night_stackers with
  | Except.error e => Except.error e
  | Except.ok visits0 =>
    let footprint := deps.get_footprint nside
    let conditions :=
      deps.return_conditions (deps.mean_local_solar_midnight day_obs)
    let visits := deps.add_coords_tuple visits0
    let result := deps.plot_visit_skymaps visits footprint conditions map_classes
    let writes : List (String × String) :=
      match report with
      | none => []
      | some fname => [(fname, deps.file_html result)]
    Except.ok
      { collected := visits0
        footprint := footprint
        conditions := conditions
        plot_input := visits
        result := result
        writes := writes
        trace := [Stage.collect, Stage.compute, Stage.plot] ++
          (match report with
           | none => []
           | some _ => [Stage.report]) }

/-- C1: every single-figure pipeline composes its stages linearly.  In
any successful run of make_visit_map, the collect stage produced
exactly the read_visits result, the plot stage received exactly the
add_coords_tuple image of the collect result, the returned plot is the
plot stage output on that input, and the trace shows collect, compute
and plot ran once each, in that order, with no stage skipped.  -/
theorem make_visit_map_stage_order
    {D S M Visits Footprint Conditions Plot E : Type}
    (deps : VisitMapDeps D S M Visits Footprint Conditions Plot E)
    (iso_date visit_source : String) (nside : Nat) (map_classes : M)
    (report : Option String)
    (run : VisitMapRun Visits Footprint Conditions Plot)
    (hok : make_visit_map deps iso_date visit_source nside map_classes report =
      Except.ok run) :
    deps.read_visits (deps.from_date iso_date) visit_source
        deps.night_stackers = Except.ok run.collected ∧
    run.plot_input = deps.add_coords_tuple run.collected ∧
    run.footprint = deps.get_footprint nside ∧
    run.conditions = deps.return_conditions
      (deps.mean_local_solar_midnight (deps.from_date iso_date)) ∧
    run.result = deps.plot_visit_skymaps run.plot_input run.footprint
      run.conditions map_classes ∧
    run.trace = [Stage.collect, Stage.compute, Stage.plot] ++
      (match report with
       | none => []
       | some _ => [Stage.report]) := by
  cases report with
  | none =>
    simp only [make_visit_map] at hok
    cases hread : deps.read_visits (deps.from_date iso_date) visit_source
        deps.night_stackers with
    | error e =>
      rw [hread] at hok
      cases hok
    | ok visits0 =>
      rw [hread] at hok
      simp only [Except.ok.injEq] at hok
      subst hok
      exact ⟨rfl, rfl, rfl, rfl, rfl, rfl⟩
  | some fname =>
    simp only [make_visit_map] at hok
    cases hread : deps.read_visits (deps.from_date iso_date) visit_source
        deps.night_stackers with
    | error e =>
      rw [hread] at hok
      cases hok
    | ok visits0 =>
      rw [hread] at hok
      simp only [Except.ok.injEq] at hok
      subst hok
      exact ⟨rfl, rfl, rfl, rfl, rfl, rfl⟩

/-- A concrete instantiation of the library dependencies, used by the
pipeline witnesses: visits are numbers, plots are strings.  -/
def demoDeps : VisitMapDeps Unit Unit Nat Nat Nat Nat Nat Unit where
  from_date := fun _ => ()
  night_stackers := ()
  read_visits := fun _ _ _ => Except.ok 7
  get_footprint := fun nside => nside
  mean_local_solar_midnight := fun _ => 60200
  return_conditions := fun _ => 42
  add_coords_tuple := fun visits => visits + 1
  plot_visit_skymaps := fun visits footprint _ _ => visits * 1000 + footprint
  file_html := fun _ => "html"

/-- The run record the demo pipeline produces when asked to write a
report file.  -/
def demoRun : VisitMapRun Nat Nat Nat Nat where
  collected := 7
  footprint := 16
  conditions := 42
  plot_input := 8
  result := 8016
  writes := [("map.html", "html")]
  trace := [Stage.collect, Stage.compute, Stage.plot, Stage.report]

/-- Witness for C1: running the demo pipeline with a report file, the
plot input is the compute image of the collect output and the trace is
collect, compute, plot, report.  -/
theorem make_visit_map_stage_order_witness :
    (make_visit_map demoDeps "2024-10-05" "lsstcomcam" 16 0
        (some "map.html")).map
      (fun run => (run.plot_input, run.trace)) =
      Except.ok ((8 : Nat),
        [Stage.collect, Stage.compute, Stage.plot, Stage.report]) := by
  have h := make_visit_map_stage_order demoDeps "2024-10-05" "lsstcomcam" 16 0
    (some "map.html") demoRun (by decide)
  rw [show make_visit_map demoDeps "2024-10-05" "lsstcomcam" 16 0
      (some "map.html") = Except.ok demoRun from by decide]
  simp only [Except.map]
  rw [h.2.1]
  decide

/-- C5: make_visit_map writes a static report file if and only if its
report argument is not None.  With a file name, exactly one write is
performed: the HTML rendering of the returned plot to that file; with
None no write is performed; and every other output of the run (the
returned plot and each intermediate stage value) is the same in both
cases.  -/
theorem make_visit_map_report_effect
    {D S M Visits Footprint Conditions Plot E : Type}
    (deps : VisitMapDeps D S M Visits Footprint Conditions Plot E)
    (iso_date visit_source : String) (nside : Nat) (map_classes : M)
    (fname : String)
    (run_report run_none : VisitMapRun Visits Footprint Conditions Plot)
    (hr : make_visit_map deps iso_date visit_source nside map_classes
      (some fname) = Except.ok run_report)
    (hn : make_visit_map deps iso_date visit_source nside map_classes
      none = Except.ok run_none) :
    run_report.writes = [(fname, deps.file_html run_report.result)] ∧
    run_none.writes = [] ∧
    run_report.result = run_none.result ∧
    run_report.collected = run_none.collected ∧
    run_report.plot_input = run_none.plot_input ∧
    run_report.footprint = run_none.footprint ∧
    run_report.conditions = run_none.conditions := by
  simp only [make_visit_map] at hr hn
  cases hread : deps.read_visits (deps.from_date iso_date) visit_source
      deps.night_stackers with
  | error e =>
    rw [hread] at hr
    cases hr
  | ok visits0 =>
    rw [hread] at hr
    rw [hread] at hn
    simp only [Except.ok.injEq] at hr hn
    subst hr
    subst hn
    exact ⟨rfl, rfl, rfl, rfl, rfl, rfl, rfl⟩

/-- The run record the demo pipeline produces when asked not to write a
report file.  -/
def demoRunNone : VisitMapRun Nat Nat Nat Nat where
  collected := 7
  footprint := 16
  conditions := 42
  plot_input := 8
  result := 8016
  writes := []
  trace := [Stage.collect, Stage.compute, Stage.plot]

/-- Witness for C5: on the demo pipeline, asking for a report file
produces exactly one write, of the HTML rendering of the plot to that
file, while asking for none produces no write and the same plot.  -/
theorem make_visit_map_report_effect_witness :
    demoRun.writes = [("map.html", demoDeps.file_html demoRun.result)] ∧
    demoRunNone.writes = [] ∧
    demoRun.result = demoRunNone.result :=
  ⟨(make_visit_map_report_effect demoDeps "2024-10-05" "lsstcomcam" 16 0
      "map.html" demoRun demoRunNone (by decide) (by decide)).1,
   (make_visit_map_report_effect demoDeps "2024-10-05" "lsstcomcam" 16 0
      "map.html" demoRun demoRunNone (by decide) (by decide)).2.1,
   (make_visit_map_report_effect demoDeps "2024-10-05" "lsstcomcam" 16 0
      "map.html" demoRun demoRunNone (by decide) (by decide)).2.2.1⟩

/-- C7: when an underlying library call in a collector raises, the
exception propagates unchanged to the caller.  An error from the open
call or from the parse call becomes the result of
read_minor_planet_orbits unchanged, and an error from the visit
database read becomes the result of make_visit_map unchanged: no
collector or pipeline driver catches it, substitutes a default, or
returns a partial result.  -/
theorem collector_errors_propagate
    {Content Table E : Type}
    {D S M Visits Footprint Conditions Plot E2 : Type}
    (load_open : String → Except E Content)
    (load_mpcorb_dataframe : Content → Except E Table)
    (deps : VisitMapDeps D S M Visits Footprint Conditions Plot E2)
    (iso_date visit_source : String) (nside : Nat) (map_classes : M)
    (report : Option String) :
    (∀ (file_name : String) (e : E),
      load_open file_name = Except.error e →
      read_minor_planet_orbits load_open load_mpcorb_dataframe file_name =
        Except.error e) ∧
    (∀ (file_name : String) (file_io : Content) (e : E),
      load_open file_name = Except.ok file_io →
      load_mpcorb_dataframe file_io = Except.error e →
      read_minor_planet_orbits load_open load_mpcorb_dataframe file_name =
        Except.error e) ∧
    (∀ e : E2,
      deps.read_visits (deps.from_date iso_date) visit_source
        deps.night_stackers = Except.error e →
      make_visit_map deps iso_date visit_source nside map_classes report =
        Except.error e) := by
  refine ⟨?_, ?_, ?_⟩
  · intro file_name e hopen
    unfold read_minor_planet_orbits
    rw [hopen]
  · intro file_name file_io e hopen hparse
    unfold read_minor_planet_orbits
    rw [hopen]
    exact hparse
  · intro e hread
    simp only [make_visit_map]
    rw [hread]

/-- The demo pipeline dependencies with a failing visit database read,
used by the C7 witness.  -/
def failDeps : VisitMapDeps Unit Unit Nat Nat Nat Nat Nat Nat where
  from_date := fun _ => ()
  night_stackers := ()
  read_visits := fun _ _ _ => Except.error 5
  get_footprint := fun nside => nside
  mean_local_solar_midnight := fun _ => 60200
  return_conditions := fun _ => 42
  add_coords_tuple := fun visits => visits + 1
  plot_visit_skymaps := fun visits footprint _ _ => visits * 1000 + footprint
  file_html := fun _ => "html"

/-- Witness for C7: a file system on which opening mpcorb.dat raises
error 3, a parser that raises error 4 on the one readable file, and a
visit database read that raises error 5; each error arrives at the
caller unchanged.  -/
theorem collector_errors_propagate_witness :
    read_minor_planet_orbits
      (fun name : String =>
        if name = "good.dat" then (Except.ok 0 : Except Nat Nat)
        else Except.error 3)
      (fun _ => (Except.error 4 : Except Nat Nat)) "mpcorb.dat" =
      Except.error 3 ∧
    read_minor_planet_orbits
      (fun name : String =>
        if name = "good.dat" then (Except.ok 0 : Except Nat Nat)
        else Except.error 3)
      (fun _ => (Except.error 4 : Except Nat Nat)) "good.dat" =
      Except.error 4 ∧
    make_visit_map failDeps "2024-10-05" "lsstcomcam" 16 0 (some "map.html") =
      Except.error 5 := by
  have h := collector_errors_propagate
    (fun name : String =>
      if name = "good.dat" then (Except.ok 0 : Except Nat Nat)
      else Except.error 3)
    (fun _ => (Except.error 4 : Except Nat Nat))
    failDeps "2024-10-05" "lsstcomcam" 16 0 (some "map.html")
  exact ⟨h.1 "mpcorb.dat" 3 (by decide),
    h.2.1 "good.dat" 0 4 (by decide) rfl,
    h.2.2 5 rfl⟩

/-! ### Computation: compute_minor_planet_positions

Source (architecture document):

    def compute_minor_planet_positions(
        minor_planet_orbits, start_mjd, end_mjd, time_step=7
    ):
        timescale = skyfield.api.load.timescale()
        start_ts = timescale.from_astropy(Time(start_mjd, format="mjd"))
        end_ts = timescale.from_astropy(Time(end_mjd, format="mjd"))
        n_samples = int((1 + end_mjd - start_mjd) / time_step)
        sample_times = timescale.linspace(start_ts, end_ts, n_samples)
        ephemeris = skyfield.api.load("de421.bsp")
        sun = ephemeris["sun"]
        position_data = {"designation": [], "mjd": [], "ra": [],
                         "decl": [], "distance": []}
        for _, orbit in minor_planet_orbits.iterrows():
            orbit_rel_sun = skyfield.data.mpc.mpcorb_orbit(orbit, timescale, GM_SUN)
            minor_planet = sun + orbit_rel_sun
            for sample_time in sample_times:
                ra, decl, distance = (
                    ephemeris["earth"].at(sample_time).observe(minor_planet).radec()
                )
                position_data["designation"].append(orbit["designation"])
                position_data["mjd"].append(sample_time.to_astropy().mjd)
                position_data["ra"].append(ra._degrees)
                position_data["decl"].append(decl._degrees)
                position_data["distance"].append(distance.au)
        position_ds = bokeh.models.ColumnDataSource(position_data)
        return position_ds

The skyfield ephemeris pipeline (mpcorb_orbit, sun + orbit, observe,
radec) is abstracted as one external function radec from orbital
elements and a sample time to the (ra, decl, distance) triple; the
repository code contributes the sampling grid, the loop structure and
the shape of the columnar result, which is what the claim is about.
-/

/-- Python int() on a rational: truncation toward zero.  -/
def int_trunc (q : ℚ) : ℤ := if 0 ≤ q then ⌊q⌋ else ⌈q⌉

/-- Evenly spaced sample times, with the numpy linspace semantics used
by timescale.linspace: num samples, the i-th at
start + (stop - start) * i / (num - 1).  With num = 1 the single
sample is start (the i = 0 offset is zero), and with num = 0 the list
is empty.  -/
def linspace (start stop : ℚ) (num : Nat) : List ℚ :=
  (List.range num).map
    (fun (i : Nat) => start + (stop - start) * (i : ℚ) / ((num : ℚ) - 1))

/-- One row of the minor-planet orbit table: its designation column and
the remaining orbital-element columns, opaque to this computation.  -/
structure MinorPlanetOrbit (Elem : Type) where
  designation : String
  elements : Elem
  deriving Repr, DecidableEq

/-- A value stored in a bokeh ColumnDataSource column: a designation
string or a number.  -/
inductive CdsVal where
  | str (s : String)
  | num (q : ℚ)
  deriving Repr, DecidableEq

/-- compute_minor_planet_positions, translated from the source.  The
result models the bokeh ColumnDataSource: the column dictionary in
insertion order, each column holding the values appended by the nested
loop over orbits (outer) and sample times (inner).  -/
def compute_minor_planet_positions {Elem : Type}
    (radec : Elem → ℚ → ℚ × ℚ × ℚ)
    (minor_planet_orbits : List (MinorPlanetOrbit Elem))
    (start_mjd end_mjd : ℚ) (time_step : ℚ) :
    List (String × List CdsVal) :=
  let n_samples := (int_trunc ((1 + end_mjd - start_mjd) / time_step)).toNat
  let sample_times := linspace start_mjd end_mjd n_samples
  [("designation", minor_planet_orbits.flatMap (fun orbit =>
      sample_times.map (fun _ => CdsVal.str orbit.designation))),
   ("mjd", minor_planet_orbits.flatMap (fun _ =>
      sample_times.map (fun t => CdsVal.num t))),
   ("ra", minor_planet_orbits.flatMap (fun orbit =>
      sample_times.map (fun t => CdsVal.num (radec orbit.elements t).1))),
   ("decl", minor_planet_orbits.flatMap (fun orbit =>
      sample_times.map (fun t => CdsVal.num (radec orbit.elements t).2.1))),
   ("distance", minor_planet_orbits.flatMap (fun orbit =>
      sample_times.map (fun t => CdsVal.num (radec orbit.elements t).2.2)))]

theorem linspace_length (start stop : ℚ) (num : Nat) :
    (linspace start stop num).length = num := by
  unfold linspace
  rw [List.length_map, List.length_range]

theorem flatMap_const_length {A B : Type} (l : List A) (f : A → List B)
    (n : Nat) (hf : ∀ a, (f a).length = n) :
    (l.flatMap f).length = l.length * n := by
  induction l with
  | nil => simp
  | cons a l ih =>
    simp only [List.flatMap_cons, List.length_append, ih, hf,
      List.length_cons]
    ring

/-- Map with a constant function is replicate, at the length of the
list.  -/
theorem map_const_eq_replicate {A B : Type} (l : List A) (b : B) :
    l.map (fun _ => b) = List.replicate l.length b := by
  simp [List.map_const]

/-- C3, corrected: for every non-empty orbit table and every interval
with start_mjd ≤ end_mjd and positive time_step, the columnar result
has exactly the five columns designation, mjd, ra, decl and distance,
each of length n * int((1 + end_mjd - start_mjd) / time_step); the
designation column is a contiguous block per orbit and the mjd column
repeats the sample-time grid once per orbit (one row per (orbit,
sample time) pair); consecutive sample times differ by the constant
(end_mjd - start_mjd) / (n_samples - 1); and the grid runs from
start_mjd to end_mjd inclusive when there are at least two samples,
while with exactly one sample the grid is [start_mjd] alone.  -/
theorem compute_minor_planet_positions_shape {Elem : Type}
    (radec : Elem → ℚ → ℚ × ℚ × ℚ)
    (minor_planet_orbits : List (MinorPlanetOrbit Elem))
    (start_mjd end_mjd time_step : ℚ)
    (hne : minor_planet_orbits ≠ [])
    (hse : start_mjd ≤ end_mjd) (hstep : 0 < time_step) :
    ∀ n_samples sample_times cds,
    n_samples = (int_trunc ((1 + end_mjd - start_mjd) / time_step)).toNat →
    sample_times = linspace start_mjd end_mjd n_samples →
    cds = compute_minor_planet_positions radec minor_planet_orbits
      start_mjd end_mjd time_step →
    (cds.map Prod.fst = ["designation", "mjd", "ra", "decl", "distance"]) ∧
    (∀ col ∈ cds, col.2.length = minor_planet_orbits.length * n_samples) ∧
    (cds.head?.map Prod.snd = some (minor_planet_orbits.flatMap (fun orbit =>
      List.replicate n_samples (CdsVal.str orbit.designation)))) ∧
    ((cds[1]?).map Prod.snd = some (minor_planet_orbits.flatMap (fun _ =>
      sample_times.map CdsVal.num))) ∧
    (∀ (i : Nat) (a b : ℚ),
      sample_times[i]? = some a → sample_times[i + 1]? = some b →
      b - a = (end_mjd - start_mjd) / ((n_samples : ℚ) - 1)) ∧
    (2 ≤ n_samples → sample_times.head? = some start_mjd ∧
      sample_times.getLast? = some end_mjd) ∧
    (n_samples = 1 → sample_times = [start_mjd]) := by
  intro n_samples sample_times cds hn hs hc
  subst hn hs hc
  refine ⟨rfl, ?_, ?_, rfl, ?_, ?_, ?_⟩
  · intro col hcol
    simp only [compute_minor_planet_positions, List.mem_cons,
      List.not_mem_nil, or_false] at hcol
    rcases hcol with h | h | h | h | h <;> subst h <;>
      exact flatMap_const_length _ _ _ (fun orbit => by
        rw [List.length_map, linspace_length])
  · simp only [compute_minor_planet_positions, List.head?_cons]
    have hfun : (fun orbit : MinorPlanetOrbit Elem =>
        (linspace start_mjd end_mjd
          (int_trunc ((1 + end_mjd - start_mjd) / time_step)).toNat).map
            (fun _ => CdsVal.str orbit.designation)) =
        (fun orbit : MinorPlanetOrbit Elem =>
          List.replicate
            (int_trunc ((1 + end_mjd - start_mjd) / time_step)).toNat
            (CdsVal.str orbit.designation)) := by
      funext orbit
      rw [map_const_eq_replicate, linspace_length]
    rw [hfun]
    rfl
  · generalize (int_trunc ((1 + end_mjd - start_mjd) / time_step)).toNat = m
    intro i a b ha hb
    unfold linspace at ha hb
    rw [List.getElem?_map] at ha hb
    have hi1 : i + 1 < m := by
      by_contra hcon
      have hnone : (List.range m)[i + 1]? = none := by
        rw [List.getElem?_eq_none]
        rw [List.length_range]
        omega
      rw [hnone] at hb
      simp at hb
    have hi : i < m := by omega
    rw [List.getElem?_range hi] at ha
    rw [List.getElem?_range hi1] at hb
    simp only [Option.map_some'] at ha hb
    cases ha
    cases hb
    have hden : (m : ℚ) - 1 ≠ 0 := by
      have h2 : (2 : ℚ) ≤ (m : ℚ) := by exact_mod_cast by omega
      intro hzero
      linarith
    push_cast
    field_simp
    ring
  · generalize (int_trunc ((1 + end_mjd - start_mjd) / time_step)).toNat = m
    intro h2
    have hpos : 0 < m := by omega
    have hden : (m : ℚ) - 1 ≠ 0 := by
      have h2q : (2 : ℚ) ≤ (m : ℚ) := by exact_mod_cast h2
      intro hzero
      linarith
    constructor
    · unfold linspace
      rw [List.head?_eq_getElem?, List.getElem?_map,
        List.getElem?_range hpos]
      simp
    · unfold linspace
      rw [List.getLast?_eq_getElem?, List.length_map, List.length_range,
        List.getElem?_map,
        List.getElem?_range (by omega : m - 1 < m)]
      simp only [Option.map_some', Option.some.injEq]
      have hcast : ((m - 1 : Nat) : ℚ) = (m : ℚ) - 1 := by
        push_cast [Nat.cast_sub (by omega : 1 ≤ m)]
        ring
      rw [hcast]
      field_simp
  · generalize (int_trunc ((1 + end_mjd - start_mjd) / time_step)).toNat = m
    intro h1
    subst h1
    unfold linspace
    rw [show List.range 1 = [0] from rfl]
    simp

/-- The orbit table used by the C3 witness.  -/
def demoOrbits : List (MinorPlanetOrbit Unit) :=
  [MinorPlanetOrbit.mk "Ceres" (), MinorPlanetOrbit.mk "Pallas" ()]

/-- Witness for C3 on two orbits and the window 60000..60013 with a
7-day step, which yields 2 samples: the five columns appear in order
and the sample grid is exactly [60000, 60013].  -/
theorem compute_minor_planet_positions_shape_witness :
    (compute_minor_planet_positions
        (fun _ _ => ((0 : ℚ), (0 : ℚ), (0 : ℚ))) demoOrbits
        60000 60013 7).map Prod.fst =
      ["designation", "mjd", "ra", "decl", "distance"] ∧
    linspace 60000 60013 2 = [60000, 60013] := by
  have harg : (1 + (60013 : ℚ) - 60000) / 7 = 2 := by norm_num
  have htr : int_trunc 2 = 2 := by norm_num [int_trunc]
  have hn : (2 : Nat) =
      (int_trunc ((1 + (60013 : ℚ) - 60000) / 7)).toNat := by
    rw [harg, htr]
    rfl
  have hl : linspace 60000 60013 2 = [60000, 60013] := by
    unfold linspace
    rw [show List.range 2 = [0, 1] from rfl]
    norm_num
  have h := compute_minor_planet_positions_shape
    (fun _ _ => ((0 : ℚ), (0 : ℚ), (0 : ℚ))) demoOrbits
    60000 60013 7 (by simp [demoOrbits]) (by norm_num) (by norm_num)
    2 (linspace 60000 60013 2)
    (compute_minor_planet_positions
      (fun _ _ => ((0 : ℚ), (0 : ℚ), (0 : ℚ))) demoOrbits
      60000 60013 7)
    hn rfl rfl
  exact ⟨h.1, hl⟩

/-- Counterexample to C3 as stated: with one orbit, start_mjd = 60000,
end_mjd = 60006 and time_step = 7 (all claim hypotheses satisfied),
n_samples = int(7 / 7) = 1, so the single sample time is 60000: the
sample grid does not run from start_mjd to end_mjd inclusive, since
end_mjd = 60006 is not among the sample times.  -/
theorem compute_minor_planet_positions_endpoint_counterexample :
    ([MinorPlanetOrbit.mk "Ceres" ()] ≠ ([] : List (MinorPlanetOrbit Unit))) ∧
    ((60000 : ℚ) ≤ 60006) ∧ ((0 : ℚ) < 7) ∧
    ((compute_minor_planet_positions
        (fun _ _ => ((0 : ℚ), (0 : ℚ), (0 : ℚ)))
        [MinorPlanetOrbit.mk "Ceres" ()] 60000 60006 7)[1]? =
      some ("mjd", [CdsVal.num 60000])) ∧
    CdsVal.num 60006 ∉ [CdsVal.num 60000] := by
  have harg : (1 + (60006 : ℚ) - 60000) / 7 = 1 := by norm_num
  have htr : int_trunc 1 = 1 := by norm_num [int_trunc]
  have hn : (int_trunc ((1 + (60006 : ℚ) - 60000) / 7)).toNat = 1 := by
    rw [harg, htr]
    rfl
  have hl : linspace 60000 60006 1 = [60000] := by
    unfold linspace
    rw [show List.range 1 = [0] from rfl]
    simp
  refine ⟨by simp, by norm_num, by norm_num, ?_, ?_⟩
  · simp only [compute_minor_planet_positions, hn, hl]
    rfl
  · intro hmem
    simp only [List.mem_singleton, CdsVal.num.injEq] at hmem
    norm_num at hmem

/-! ### The SimpleSampleDashboard reactive state machine

Source (architecture document):

    class SimpleSampleDashboard(param.Parameterized):
        orbit_filename = param.FileSelector(
            default="./mpcorb_sample_big.dat", path="./mpcorb_*.dat", ...)
        start_mjd = param.Number(default=60200, ...)
        end_mjd = param.Number(default=60565, ...)
        orbits = param.Parameter()
        positions = param.Parameter()

        @param.depends("orbit_filename", watch=True)
        def update_orbits(self):
            if self.orbit_filename is None:
                print("No file supplied, not loading orbits")
                return
            self.orbits = read_minor_planet_orbits(self.orbit_filename)

        @param.depends("orbits", "start_mjd", "end_mjd", watch=True)
        def update_positions(self):
            if self.orbits is None:
                print("No orbits, not updating positions")
                return
            self.positions = compute_minor_planet_positions(
                self.orbits, self.start_mjd, self.end_mjd, time_step=28)

        @param.depends("positions")
        def make_position_figure(self):
            if self.positions is None:
                return None
            figure = map_minor_planet_positions(self.positions)
            return figure

        def make_app(self):
            self.update_orbits()
            ...

The param framework fires update_orbits when orbit_filename is
assigned, and update_positions when orbits, start_mjd or end_mjd is
assigned; assigning self.orbits inside update_orbits therefore runs
update_positions as part of the same cascade.  The collect stage
(read_minor_planet_orbits) and compute stage
(compute_minor_planet_positions at time_step 28) are abstracted as
functions read_orbits and comp.
-/

/-- The parameter state of a SimpleSampleDashboard instance.  -/
structure DashboardState (Orbits Positions : Type) where
  orbit_filename : Option String
  start_mjd : ℚ
  end_mjd : ℚ
  orbits : Option Orbits
  positions : Option Positions

/-- The update_positions watcher: recompute positions from the current
orbits and date window, or do nothing when no orbits are loaded.  -/
def update_positions {O P : Type} (comp : O → ℚ → ℚ → P)
    (s : DashboardState O P) : DashboardState O P :=
  match s.orbits with
  | none => s
  | some o =>
    { s with positions := some (comp o s.start_mjd s.end_mjd) }

/-- The update_orbits watcher: reload orbits from the current file, or
do nothing when no file is supplied.  Assigning self.orbits fires the
update_positions watcher, so the cascade is part of this step.  -/
def update_orbits {O P : Type} (read_orbits : String → O)
    (comp : O → ℚ → ℚ → P) (s : DashboardState O P) : DashboardState O P :=
  match s.orbit_filename with
  | none => s
  | some f =>
    update_positions comp { s with orbits := some (read_orbits f) }

/-- One user-facing parameter assignment.  -/
inductive DashboardUpdate where
  | set_orbit_filename (f : Option String)
  | set_start_mjd (x : ℚ)
  | set_end_mjd (x : ℚ)

/-- Assigning a parameter runs the watchers that depend on it.  -/
def apply_update {O P : Type} (read_orbits : String → O)
    (comp : O → ℚ → ℚ → P) (s : DashboardState O P) :
    DashboardUpdate → DashboardState O P
  | DashboardUpdate.set_orbit_filename f =>
    update_orbits read_orbits comp { s with orbit_filename := f }
  | DashboardUpdate.set_start_mjd x =>
    update_positions comp { s with start_mjd := x }
  | DashboardUpdate.set_end_mjd x =>
    update_positions comp { s with end_mjd := x }

/-- The state of a freshly constructed SimpleSampleDashboard: default
parameter values, no orbits and no positions loaded (watchers do not
fire during construction).  -/
def initial_state {O P : Type} : DashboardState O P where
  orbit_filename := some "./mpcorb_sample_big.dat"
  start_mjd := 60200
  end_mjd := 60565
  orbits := none
  positions := none

/-- make_app starts by calling update_orbits explicitly.  -/
def make_app {O P : Type} (read_orbits : String → O)
    (comp : O → ℚ → ℚ → P) (s : DashboardState O P) : DashboardState O P :=
  update_orbits read_orbits comp s

/-- Run a sequence of parameter updates.  -/
def run_updates {O P : Type} (read_orbits : String → O)
    (comp : O → ℚ → ℚ → P) (s : DashboardState O P)
    (us : List DashboardUpdate) : DashboardState O P :=
  us.foldl (apply_update read_orbits comp) s

/-- make_position_figure: None exactly when no positions are loaded,
otherwise the figure for the current positions.  -/
def make_position_figure {O P F : Type} (map_minor_planet_positions : P → F)
    (s : DashboardState O P) : Option F :=
  s.positions.map map_minor_planet_positions

/-- True unless the update assigns None to orbit_filename.  -/
def keeps_filename (u : DashboardUpdate) : Bool :=
  match u with
  | DashboardUpdate.set_orbit_filename none => false
  | _ => true

/-- The consistency invariant the dashboard maintains.  -/
def dashboard_inv {O P : Type} (read_orbits : String → O)
    (comp : O → ℚ → ℚ → P) (s : DashboardState O P) : Prop :=
  ∃ f, s.orbit_filename = some f ∧ s.orbits = some (read_orbits f) ∧
    s.positions = some (comp (read_orbits f) s.start_mjd s.end_mjd)

theorem apply_update_preserves_inv {O P : Type} (read_orbits : String → O)
    (comp : O → ℚ → ℚ → P) (s : DashboardState O P) (u : DashboardUpdate)
    (hinv : dashboard_inv read_orbits comp s)
    (hu : keeps_filename u = true) :
    dashboard_inv read_orbits comp (apply_update read_orbits comp s u) := by
  obtain ⟨f, hf, ho, hp⟩ := hinv
  cases u with
  | set_orbit_filename g =>
    cases g with
    | none => simp [keeps_filename] at hu
    | some g =>
      refine ⟨g, ?_⟩
      simp [apply_update, update_orbits, update_positions]
  | set_start_mjd x =>
    refine ⟨f, ?_⟩
    simp only [apply_update, update_positions]
    rw [show ({ s with start_mjd := x } : DashboardState O P).orbits =
      s.orbits from rfl, ho]
    exact ⟨hf, rfl, rfl⟩
  | set_end_mjd x =>
    refine ⟨f, ?_⟩
    simp only [apply_update, update_positions]
    rw [show ({ s with end_mjd := x } : DashboardState O P).orbits =
      s.orbits from rfl, ho]
    exact ⟨hf, rfl, rfl⟩

theorem run_updates_preserves_inv {O P : Type} (read_orbits : String → O)
    (comp : O → ℚ → ℚ → P) :
    ∀ (us : List DashboardUpdate) (s : DashboardState O P),
    dashboard_inv read_orbits comp s →
    (∀ u ∈ us, keeps_filename u = true) →
    dashboard_inv read_orbits comp (run_updates read_orbits comp s us) := by
  intro us
  induction us with
  | nil => intro s hinv _; exact hinv
  | cons u us ih =>
    intro s hinv hall
    have h1 := apply_update_preserves_inv read_orbits comp s u hinv
      (hall u (List.mem_cons_self u us))
    exact ih _ h1 (fun v hv => hall v (List.mem_cons_of_mem u hv))

/-- C4, corrected: in every state reachable from a fresh
SimpleSampleDashboard by make_app (which runs update_orbits once at
startup) followed by any sequence of parameter updates that never sets
orbit_filename to None, the derived state is consistent with the
user-facing parameters: orbits is the collect result on the current
orbit_filename, positions is the compute result on the current
(orbits, start_mjd, end_mjd), and (in every state whatsoever)
make_position_figure returns None exactly when positions is None.  -/
theorem simple_sample_dashboard_consistent {O P F : Type}
    (read_orbits : String → O) (comp : O → ℚ → ℚ → P)
    (map_minor_planet_positions : P → F)
    (us : List DashboardUpdate)
    (hus : ∀ u ∈ us, keeps_filename u = true) :
    ∀ s, s = run_updates read_orbits comp
      (make_app read_orbits comp initial_state) us →
    (∀ f, s.orbit_filename = some f → s.orbits = some (read_orbits f)) ∧
    (∀ o, s.orbits = some o →
      s.positions = some (comp o s.start_mjd s.end_mjd)) ∧
    (∀ t : DashboardState O P,
      make_position_figure map_minor_planet_positions t = none ↔
        t.positions = none) := by
  intro s hs
  have hinit : dashboard_inv read_orbits comp
      (make_app read_orbits comp (initial_state (O := O) (P := P))) :=
    ⟨"./mpcorb_sample_big.dat", rfl, rfl, rfl⟩
  have hinv := run_updates_preserves_inv read_orbits comp us _ hinit hus
  rw [← hs] at hinv
  obtain ⟨f, hf, ho, hp⟩ := hinv
  refine ⟨?_, ?_, ?_⟩
  · intro g hg
    rw [hf] at hg
    cases hg
    exact ho
  · intro o hoo
    rw [ho] at hoo
    cases hoo
    exact hp
  · intro t
    unfold make_position_figure
    cases t.positions <;> simp

/-- Witness for C4: with collect returning the file name length and
compute returning the orbits value, two updates (a new start MJD, then
a new orbit file) leave the dashboard with orbits = some 9 (the length
of "other.dat") and positions = some 9.  -/
theorem simple_sample_dashboard_consistent_witness :
    (run_updates (fun f : String => f.length) (fun o _ _ => o)
      (make_app (fun f : String => f.length) (fun o _ _ => o) initial_state)
      [DashboardUpdate.set_start_mjd 1,
       DashboardUpdate.set_orbit_filename (some "other.dat")]).orbits =
      some 9 := by
  have h := simple_sample_dashboard_consistent
    (fun f : String => f.length) (fun o _ _ => o) (fun p : Nat => p)
    [DashboardUpdate.set_start_mjd 1,
     DashboardUpdate.set_orbit_filename (some "other.dat")]
    (by decide) _ rfl
  exact h.1 "other.dat" rfl

/-- Counterexample to C4 as stated: starting from a freshly constructed
dashboard (before make_app has run), the single update sequence
[set_start_mjd 60300] leaves orbit_filename at its non-None default
while orbits is still None, so orbits is not the collect result on the
current orbit_filename.  -/
theorem simple_sample_dashboard_counterexample :
    (run_updates (fun f : String => f.length) (fun o _ _ => o)
      initial_state [DashboardUpdate.set_start_mjd 60300]).orbit_filename =
      some "./mpcorb_sample_big.dat" ∧
    (run_updates (fun f : String => f.length) (fun o _ _ => o)
      initial_state [DashboardUpdate.set_start_mjd 60300]).orbits =
      (none : Option Nat) ∧
    (none : Option Nat) ≠ some (String.length "./mpcorb_sample_big.dat") :=
  ⟨rfl, rfl, by simp⟩

/-! ### Archive transfer: numbering simulations in the date directory

Source (prenight simulation notebook):

    def transfer_archive_dir(archive_dir, archive_base_uri=...):
        ...
        found_ids = []
        for base_dir, found_dirs, found_files in insert_date_rpath.walk():
            if base_dir == insert_date_rpath:
                for found_dir in found_dirs:
                    try:
                        found_ids.append(int(found_dir[:-1]))
                    except ValueError:
                        pass
        new_id = max(found_ids) + 1 if len(found_ids)>0 else 1
        resource_rpath = insert_date_rpath.join(f"{new_id}", forceDirectory=True)
        ...

Directory names are reported with a trailing slash, which found_dir[:-1]
removes before the int() conversion; a name whose remainder is not an
integer raises ValueError, which the loop catches and skips.  Python
int() is modelled by parse_int below: surrounding whitespace, an
optional sign, then at least one decimal digit (digit-grouping
underscores of Python ints are not modelled).
-/

/-- Decimal digits to a natural number, most significant first.  -/
def digits_to_nat (cs : List Char) : Nat :=
  cs.foldl (fun n c => 10 * n + (c.toNat - '0'.toNat)) 0

/-- Python int() applied to a string: optional surrounding whitespace,
optional sign, one or more decimal digits; anything else raises
ValueError, modelled as none.  The whitespace strip is spelled out on
the character list.  -/
def parse_int (s : String) : Option Int :=
  let cs := ((s.toList.dropWhile Char.isWhitespace).reverse.dropWhile
    Char.isWhitespace).reverse
  match cs with
  | [] => none
  | '+' :: rest =>
    if rest ≠ [] ∧ rest.all Char.isDigit
    then some (digits_to_nat rest) else none
  | '-' :: rest =>
    if rest ≠ [] ∧ rest.all Char.isDigit
    then some (-(digits_to_nat rest : Int)) else none
  | _ =>
    if cs.all Char.isDigit then some (digits_to_nat cs) else none

/-- The ids of the existing simulation directories: each directory name
with its trailing slash removed, kept when it parses as an integer and
skipped otherwise.  -/
def found_ids (found_dirs : List String) : List Int :=
  found_dirs.filterMap (fun found_dir => parse_int (found_dir.dropRight 1))

/-- The id given to the new simulation directory: the maximum existing
id plus one, or 1 when no directory parses as an integer.  -/
def new_id (found_dirs : List String) : Int :=
  match found_ids found_dirs with
  | [] => 1
  | x :: xs => xs.foldl max x + 1

theorem left_le_foldl_max : ∀ (xs : List Int) (a : Int), a ≤ xs.foldl max a := by
  intro xs
  induction xs with
  | nil => intro a; exact le_refl a
  | cons y ys ih =>
    intro a
    exact le_trans (le_max_left a y) (ih (max a y))

theorem mem_le_foldl_max : ∀ (xs : List Int) (a x : Int), x ∈ xs →
    x ≤ xs.foldl max a := by
  intro xs
  induction xs with
  | nil => intro a x hx; cases hx
  | cons y ys ih =>
    intro a x hx
    rcases List.mem_cons.mp hx with h | h
    · subst h
      exact le_trans (le_max_right a x) (left_le_foldl_max ys (max a x))
    · exact ih (max a y) x h

/-- C8: transfer_archive_dir never reuses an existing id.  The id
chosen for the new simulation directory is strictly greater than every
id that parses from an existing directory name; names that do not
parse as integers are skipped (they leave the choice unchanged rather
than causing a failure); and when no name parses the id is 1.  -/
theorem transfer_archive_dir_new_id_fresh (found_dirs : List String) :
    (∀ d ∈ found_dirs, ∀ k : Int,
      parse_int (d.dropRight 1) = some k → k < new_id found_dirs) ∧
    (∀ d, parse_int (d.dropRight 1) = none →
      new_id (d :: found_dirs) = new_id found_dirs) ∧
    (found_ids found_dirs = [] → new_id found_dirs = 1) := by
  refine ⟨?_, ?_, ?_⟩
  · intro d hd k hk
    have hmem : k ∈ found_ids found_dirs := by
      unfold found_ids
      exact List.mem_filterMap.mpr ⟨d, hd, hk⟩
    unfold new_id
    cases hfi : found_ids found_dirs with
    | nil => rw [hfi] at hmem; cases hmem
    | cons x xs =>
      rw [hfi] at hmem
      show k < xs.foldl max x + 1
      rcases List.mem_cons.mp hmem with h | h
      · subst h
        have := left_le_foldl_max xs k
        omega
      · have := mem_le_foldl_max xs x k h
        omega
  · intro d hd
    unfold new_id found_ids
    rw [List.filterMap_cons]
    simp only [hd]
  · intro hfi
    unfold new_id
    rw [hfi]

/-- Witness for C8: with existing directories 3/, 17/, junk/ and -2/,
the new id is 18, strictly above the parsed ids 3, 17 and -2, and the
unparsable name junk/ is skipped; with no parsable names the id is 1.  -/
theorem transfer_archive_dir_new_id_fresh_witness :
    (17 : Int) < new_id ["3/", "17/", "junk/", "-2/"] ∧
    new_id ["3/", "17/", "junk/", "-2/"] = 18 ∧
    new_id ["junk/"] = 1 := by
  have h := transfer_archive_dir_new_id_fresh ["3/", "17/", "junk/", "-2/"]
  refine ⟨h.1 "17/" (by simp) 17 (by decide), by decide, ?_⟩
  have h2 := transfer_archive_dir_new_id_fresh ["junk/"]
  exact h2.2.2 (by decide)

/-! ### Archiving a simulation: make_sim_archive_dir

Source (prenight simulation notebook):

    def make_sim_archive_dir(observations, reward_df=None, obs_rewards=None,
                             in_files={}, data_path=None, destination_uri=None):
        ...
        files = {}
        files['observations'] = {'name': 'opsim.db'}
        SchemaConverter().obs2opsim(observations, filename=opsim_output_fname)
        if reward_df is not None and obs_rewards is not None:
            files['rewards'] = {'name': 'rewards.h5'}
            if reward_df is not None: reward_df.to_hdf(rewards_fname, "reward_df")
            if obs_rewards is not None: obs_rewards.to_hdf(rewards_fname, "obs_rewards")
        files['statistics'] = {'name': 'obs_stats.txt'}
        ... write obs_stats.txt ...
        for file_type, fname in in_files.items():
            files[file_type] = {'name': Path(fname).name}
            try:
                shutil.copyfile(fname, data_path.joinpath(files[file_type]['name']))
            except shutil.SameFileError:
                pass
        for file_type in files:
            fname = data_path.joinpath(files[file_type]['name'])
            with open(fname, 'rb') as file_io:
                content = file_io.read()
            files[file_type]['md5'] = hashlib.md5(content).hexdigest()
        ... build opsim_metadata, write sim_metadata.yaml ...
        files['metadata'] = {'name': sim_metadata_fname}
        return data_dir

The external writers (SchemaConverter, to_hdf, yaml.dump, hashlib.md5)
are parameters; the archive directory is a map from file name to
contents; the files dictionary is an insertion-ordered association
list with Python dict assignment semantics (dict_set).
-/

/-- One value of the files dictionary: the file name, and the md5 hex
digest once the hashing loop has filled it in.  -/
structure FileEntry where
  name : String
  md5 : Option String
  deriving Repr, DecidableEq

/-- Python dict assignment d[k] = v on an insertion-ordered association
list: replace in place when the key is present, append otherwise.  -/
def dict_set {A : Type} (d : List (String × A)) (k : String) (v : A) :
    List (String × A) :=
  if d.any (fun p => p.1 = k) then
    d.map (fun p => if p.1 = k then (k, v) else p)
  else d ++ [(k, v)]

/-- Write one file into the archive directory.  -/
def fs_write (fs : String → Option String) (name content : String) :
    String → Option String :=
  fun n => if n = name then some content else fs n

/-- Path(fname).name: the part of the path after the last slash.  -/
def basename (path : String) : String :=
  String.mk ((path.toList.reverse.takeWhile (fun c => c ≠ '/')).reverse)

/-- One iteration of the supplied-files loop: record the entry under
its file_type key and copy the source file into the archive directory
under its base name.  -/
def archive_step (source_fs : String → String)
    (acc : List (String × FileEntry) × (String → Option String))
    (p : String × String) :
    List (String × FileEntry) × (String → Option String) :=
  (dict_set acc.1 p.1 (FileEntry.mk (basename p.2) none),
   fs_write acc.2 (basename p.2) (source_fs p.2))

/-- The files dictionary and archive contents after the observations,
rewards and statistics files are saved, before the supplied files are
copied in.  -/
def archive_base (obs_content stats_content : String)
    (reward_df obs_rewards : Option String) :
    List (String × FileEntry) × (String → Option String) :=
  let files0 : List (String × FileEntry) :=
    [("observations", FileEntry.mk "opsim.db" none)]
  let fs0 := fs_write (fun _ => none) "opsim.db" obs_content
  let files1 := if reward_df.isSome && obs_rewards.isSome then
    dict_set files0 "rewards" (FileEntry.mk "rewards.h5" none) else files0
  let fs1 := if reward_df.isSome && obs_rewards.isSome then
    fs_write fs0 "rewards.h5" (reward_df.getD "" ++ obs_rewards.getD "")
    else fs0
  (dict_set files1 "statistics" (FileEntry.mk "obs_stats.txt" none),
   fs_write fs1 "obs_stats.txt" stats_content)

/-- make_sim_archive_dir, translated from the source.  Returns the
files dictionary and the archive directory contents.  obs_content and
stats_content are the bytes produced by the external writers;
reward_df and obs_rewards carry the bytes each to_hdf call appends to
rewards.h5 when the dataframe is supplied.  -/
def make_sim_archive_dir
    (md5hex : String → String)
    (yaml_dump : List (String × FileEntry) → String)
    (obs_content stats_content : String)
    (reward_df obs_rewards : Option String)
    (in_files : List (String × String))
    (source_fs : String → String) :
    List (String × FileEntry) × (String → Option String) :=
  let pre := in_files.foldl (archive_step source_fs)
    (archive_base obs_content stats_content reward_df obs_rewards)
  let hashed := pre.1.map (fun p =>
    (p.1, FileEntry.mk p.2.name (some (md5hex ((pre.2 p.2.name).getD "")))))
  let fs3 := fs_write pre.2 "sim_metadata.yaml" (yaml_dump hashed)
  let files3 := dict_set hashed "metadata"
    (FileEntry.mk "sim_metadata.yaml" none)
  (files3, fs3)

theorem mem_dict_set {A : Type} (d : List (String × A)) (k : String) (v : A)
    (t : String) (e : A) (h : (t, e) ∈ dict_set d k v) :
    ((t, e) ∈ d ∧ t ≠ k) ∨ (t = k ∧ e = v) := by
  unfold dict_set at h
  by_cases hk : d.any (fun p => p.1 = k) = true
  · rw [if_pos hk] at h
    obtain ⟨p, hp, himg⟩ := List.mem_map.mp h
    by_cases hpk : p.1 = k
    · rw [if_pos hpk] at himg
      cases himg
      exact Or.inr ⟨rfl, rfl⟩
    · rw [if_neg hpk] at himg
      subst himg
      exact Or.inl ⟨hp, hpk⟩
  · rw [if_neg hk] at h
    have hk' : d.any (fun p => p.1 = k) = false :=
      Bool.eq_false_iff.mpr hk
    simp only [List.any_eq_false, decide_eq_true_eq] at hk'
    rcases List.mem_append.mp h with h1 | h1
    · exact Or.inl ⟨h1, hk' (t, e) h1⟩
    · simp only [List.mem_singleton] at h1
      cases h1
      exact Or.inr ⟨rfl, rfl⟩

theorem fs_write_ne (fs : String → Option String) (name content n : String)
    (h : n ≠ name) : fs_write fs name content n = fs n := by
  unfold fs_write
  rw [if_neg h]

/-- The invariant carried through the construction: no entry is keyed
"metadata" and no entry names the metadata file.  -/
def entry_ok (t : String) (e : FileEntry) : Prop :=
  e.name ≠ "sim_metadata.yaml" ∧ t ≠ "metadata"

theorem entry_ok_dict_set (d : List (String × FileEntry)) (k : String)
    (v : FileEntry) (hd : ∀ t e, (t, e) ∈ d → entry_ok t e)
    (hv : entry_ok k v) :
    ∀ t e, (t, e) ∈ dict_set d k v → entry_ok t e := by
  intro t e h
  rcases mem_dict_set d k v t e h with ⟨h1, _⟩ | ⟨h1, h2⟩
  · exact hd t e h1
  · subst h1
    subst h2
    exact hv

theorem archive_base_entry_ok (obs_content stats_content : String)
    (reward_df obs_rewards : Option String) :
    ∀ t e, (t, e) ∈ (archive_base obs_content stats_content
      reward_df obs_rewards).1 → entry_ok t e := by
  have h0 : ∀ t e,
      (t, e) ∈ [("observations", FileEntry.mk "opsim.db" none)] →
      entry_ok t e := by
    intro t e h
    simp only [List.mem_singleton] at h
    cases h
    exact ⟨by decide, by decide⟩
  unfold archive_base
  apply entry_ok_dict_set
  · split
    · exact entry_ok_dict_set _ _ _ h0 ⟨by decide, by decide⟩
    · exact h0
  · exact ⟨by decide, by decide⟩

theorem archive_loop_entry_ok (source_fs : String → String) :
    ∀ (ps : List (String × String))
      (acc : List (String × FileEntry) × (String → Option String)),
    (∀ t e, (t, e) ∈ acc.1 → entry_ok t e) →
    (∀ p ∈ ps, basename p.2 ≠ "sim_metadata.yaml" ∧ p.1 ≠ "metadata") →
    ∀ t e, (t, e) ∈ (ps.foldl (archive_step source_fs) acc).1 →
      entry_ok t e := by
  intro ps
  induction ps with
  | nil => intro acc hacc _; exact hacc
  | cons p ps ih =>
    intro acc hacc hps
    have hstep : ∀ t e, (t, e) ∈ (archive_step source_fs acc p).1 →
        entry_ok t e := by
      refine entry_ok_dict_set acc.1 p.1 _ hacc ?_
      exact ⟨(hps p (List.mem_cons_self p ps)).1,
        (hps p (List.mem_cons_self p ps)).2⟩
    exact ih (archive_step source_fs acc p) hstep
      (fun q hq => hps q (List.mem_cons_of_mem p hq))

/-- C9: in the archive directory built by make_sim_archive_dir, every
entry of the files dictionary other than the metadata entry carries an
md5 field equal to the digest of the bytes, in the archive directory,
of the file it names; the metadata entry, added after the hashing
loop, carries no md5 field and sits at the end of the dictionary, so
the hash of the metadata file is never recorded.  -/
theorem make_sim_archive_dir_md5_fields
    (md5hex : String → String)
    (yaml_dump : List (String × FileEntry) → String)
    (obs_content stats_content : String)
    (reward_df obs_rewards : Option String)
    (in_files : List (String × String))
    (source_fs : String → String)
    (hnames : ∀ p ∈ in_files, basename p.2 ≠ "sim_metadata.yaml")
    (hkeys : ∀ p ∈ in_files, p.1 ≠ "metadata") :
    ∀ files fs,
    make_sim_archive_dir md5hex yaml_dump obs_content stats_content
      reward_df obs_rewards in_files source_fs = (files, fs) →
    (∀ t e, (t, e) ∈ files → t ≠ "metadata" →
      e.md5 = some (md5hex ((fs e.name).getD ""))) ∧
    (∀ e, ("metadata", e) ∈ files → e.md5 = none) ∧
    files.getLast? = some ("metadata", FileEntry.mk "sim_metadata.yaml" none)
    := by
  intro files fs heq
  simp only [make_sim_archive_dir] at heq
  injection heq with hf hs
  subst hf
  subst hs
  generalize hF : List.foldl (archive_step source_fs)
    (archive_base obs_content stats_content reward_df obs_rewards)
    in_files = pre
  have hP : ∀ t e, (t, e) ∈ pre.1 → entry_ok t e := by
    rw [← hF]
    exact archive_loop_entry_ok source_fs in_files _
      (archive_base_entry_ok obs_content stats_content reward_df obs_rewards)
      (fun p hp => ⟨hnames p hp, hkeys p hp⟩)
  have hany : (pre.1.map (fun p =>
      (p.1, FileEntry.mk p.2.name
        (some (md5hex ((pre.2 p.2.name).getD "")))))).any
      (fun p => p.1 = "metadata") = false := by
    rw [List.any_eq_false]
    intro x hx
    obtain ⟨p, hp, himg⟩ := List.mem_map.mp hx
    have hok := hP p.1 p.2 (by rwa [Prod.mk.eta])
    subst himg
    simp only [decide_eq_true_eq]
    exact hok.2
  refine ⟨?_, ?_, ?_⟩
  · intro t e hmem hne
    rcases mem_dict_set _ _ _ _ _ hmem with ⟨hin, _⟩ | ⟨ht, _⟩
    · obtain ⟨p, hp, himg⟩ := List.mem_map.mp hin
      cases himg
      have hok := hP p.1 p.2 (by rwa [Prod.mk.eta])
      show some _ = some (md5hex
        ((fs_write pre.2 "sim_metadata.yaml" _ _).getD ""))
      rw [fs_write_ne _ _ _ _ hok.1]
    · exact absurd ht hne
  · intro e hmem
    rcases mem_dict_set _ _ _ _ _ hmem with ⟨hin, hne⟩ | ⟨_, he⟩
    · exact absurd rfl hne
    · subst he
      rfl
  · rw [show dict_set (pre.1.map (fun p =>
        (p.1, FileEntry.mk p.2.name
          (some (md5hex ((pre.2 p.2.name).getD "")))))) "metadata"
        (FileEntry.mk "sim_metadata.yaml" none) =
      (pre.1.map (fun p =>
        (p.1, FileEntry.mk p.2.name
          (some (md5hex ((pre.2 p.2.name).getD "")))))) ++
        [("metadata", FileEntry.mk "sim_metadata.yaml" none)] from by
      unfold dict_set
      rw [hany]
      rfl]
    rw [List.getLast?_concat]

/-- The archive produced by the C9 witness: a rewards pair is supplied
and one scheduler pickle is copied in; hashing is modelled by
prefixing a hash mark.  -/
def demoArchive : List (String × FileEntry) × (String → Option String) :=
  make_sim_archive_dir (fun s => "#" ++ s) (fun _ => "YAML")
    "OBS" "STATS" (some "R") (some "O")
    [("scheduler", "dir/sched.pickle")] (fun _ => "SRC")

/-- Witness for C9: in the demo archive the metadata entry is last and
has no md5, while the observations entry carries the digest of the
opsim.db bytes in the archive directory.  -/
theorem make_sim_archive_dir_md5_fields_witness :
    demoArchive.1.getLast? =
      some ("metadata", FileEntry.mk "sim_metadata.yaml" none) ∧
    (FileEntry.mk "opsim.db" (some "#OBS")).md5 =
      some ((fun s => "#" ++ s) ((demoArchive.2 "opsim.db").getD "")) := by
  have h := make_sim_archive_dir_md5_fields (fun s => "#" ++ s)
    (fun _ => "YAML") "OBS" "STATS" (some "R") (some "O")
    [("scheduler", "dir/sched.pickle")] (fun _ => "SRC")
    (by decide) (by decide) demoArchive.1 demoArchive.2 rfl
  exact ⟨h.2.2, h.1 "observations" (FileEntry.mk "opsim.db" (some "#OBS"))
    (by decide) (by decide)⟩

/-! ### Graceful degradation of the Prenight dashboard tabs

Source (the custom-tab tutorial notebooks):

    @param.depends("_visits")
    def make_activity_bars(self):
        # The dashboard may not have any loaded visits, for example
        # when first loaded, so handle that situation gracefully
        if self._visits is None:
            return "No visits are loaded"
        return create_visit_time_by_activity_bars(self._visits)

    @param.depends("_visits")
    def make_activity_summary_table(self):
        if self._visits is None:
            return "No visits are loaded"
        return create_activity_summary_table(self._visits)

    @param.depends("_visits")
    def make_az_wrap_plot(self):
        if self._visits is None:
            return "No visits are loaded"
        return pn.pane.Matplotlib(create_cumm_az_plot(self._visits))

Each method returns either a plain string or a plot object; the
plotting helpers are parameters.
-/

/-- What a tab-content method hands to panel: a message string or a
plot object.  -/
inductive TabContent (Plot : Type) where
  | message (s : String)
  | plot (p : Plot)
  deriving DecidableEq

/-- PrenightWithActivityTab.make_activity_bars.  -/
def make_activity_bars {Visits Plot : Type}
    (create_visit_time_by_activity_bars : Visits → Plot)
    (visits : Option Visits) : TabContent Plot :=
  match visits with
  | none => TabContent.message "No visits are loaded"
  | some v => TabContent.plot (create_visit_time_by_activity_bars v)

/-- PrenightWithActivityTab.make_activity_summary_table.  -/
def make_activity_summary_table {Visits Plot : Type}
    (create_activity_summary_table : Visits → Plot)
    (visits : Option Visits) : TabContent Plot :=
  match visits with
  | none => TabContent.message "No visits are loaded"
  | some v => TabContent.plot (create_activity_summary_table v)

/-- PrenightWithAzWrapTab.make_az_wrap_plot; the Matplotlib pane
wrapper around the figure is a parameter.  -/
def make_az_wrap_plot {Visits Fig Pane : Type}
    (matplotlib_pane : Fig → Pane)
    (create_cumm_az_plot : Visits → Fig)
    (visits : Option Visits) : TabContent Pane :=
  match visits with
  | none => TabContent.message "No visits are loaded"
  | some v => TabContent.plot (matplotlib_pane (create_cumm_az_plot v))

/-- C10: the Prenight tab-content methods degrade gracefully.  When no
visits are loaded each of make_activity_bars,
make_activity_summary_table and make_az_wrap_plot returns the string
"No visits are loaded" without calling its plotting helper, and when
visits are loaded each returns exactly the plot its helper builds from
those visits.  -/
theorem prenight_tabs_degrade_gracefully {Visits Plot Fig Pane : Type}
    (create_visit_time_by_activity_bars : Visits → Plot)
    (create_activity_summary_table : Visits → Plot)
    (matplotlib_pane : Fig → Pane)
    (create_cumm_az_plot : Visits → Fig)
    (visits : Option Visits) :
    (visits = none →
      make_activity_bars create_visit_time_by_activity_bars visits =
        TabContent.message "No visits are loaded" ∧
      make_activity_summary_table create_activity_summary_table visits =
        TabContent.message "No visits are loaded" ∧
      make_az_wrap_plot matplotlib_pane create_cumm_az_plot visits =
        TabContent.message "No visits are loaded") ∧
    (∀ v, visits = some v →
      make_activity_bars create_visit_time_by_activity_bars visits =
        TabContent.plot (create_visit_time_by_activity_bars v) ∧
      make_activity_summary_table create_activity_summary_table visits =
        TabContent.plot (create_activity_summary_table v) ∧
      make_az_wrap_plot matplotlib_pane create_cumm_az_plot visits =
        TabContent.plot (matplotlib_pane (create_cumm_az_plot v))) := by
  constructor
  · intro h
    subst h
    exact ⟨rfl, rfl, rfl⟩
  · intro v h
    subst h
    exact ⟨rfl, rfl, rfl⟩

/-- Witness for C10: with no visits loaded the activity-bars tab shows
the message, and with visits loaded it shows the plot.  -/
theorem prenight_tabs_degrade_gracefully_witness :
    make_activity_bars (fun v : Nat => v + 1) none =
      TabContent.message "No visits are loaded" ∧
    make_activity_bars (fun v : Nat => v + 1) (some 41) =
      TabContent.plot 42 :=
  ⟨(prenight_tabs_degrade_gracefully (fun v : Nat => v + 1)
      (fun v : Nat => v + 1) (fun f : Nat => f) (fun v : Nat => v)
      none).1 rfl |>.1,
   ((prenight_tabs_degrade_gracefully (fun v : Nat => v + 1)
      (fun v : Nat => v + 1) (fun f : Nat => f) (fun v : Nat => v)
      (some 41)).2 41 rfl).1⟩

end Schedview
